import Mathlib

/-!
Shallow embedding of `src-tauri/src/cpp/bindings.cpp` (the TetGen FFI bridge):
the exported functions `tetrahedralize_mesh` and `free_mesh_result`.

Modelling decisions, statement by statement against the C source:

* The external TetGen kernel (`tetrahedralize`, `tetgenbehavior::parse_commandline`,
  declared in `tetgen.h`, not part of this repository) is treated — exactly as the
  design document prescribes — as an opaque pure function that may raise a fault:
  parameters `kernel : B → tetgenio R → Except Unit (tetgenio R)` and
  `parse : String → Except Unit B`, where `B` is the abstract type of behavior
  descriptors (`tetgenbehavior`) and `R` the value type of the C `double` / TetGen
  `REAL` (tetgen.h defines `REAL` as `double`, so one type serves both sides).
* Caller memory (the borrowed `in_vertices`, `in_faces` and `options` buffers) is
  explicit mutable state threaded through a state-and-exception monad `M`, so that
  "the bridge only reads, never writes, caller memory" is a provable statement
  about the embedding, not a vacuous artifact of a purely functional translation.
  Buffers are total maps `Nat → ·`; which indices are actually read is settled by
  frame theorems.
* A thrown C++ exception is `Except.error ()` (`catch (...)` ignores the payload).
  `new T[n]` with a negative array bound `n` throws (`std::bad_array_new_length`);
  `checkNew` models that bound check.  Every allocation in this code is fully
  initialized by the statements immediately following it before any other use, so
  each `new`+fill loop is embedded as the bound check followed by the functional
  construction of the final contents.
* `delete` in `free_mesh_result` is observed through an explicit trace of free
  events, so the release order and conditions are provable.
-/

namespace ShortStack

/-- `tetgenio::polygon` — the fields touched by the bridge
(`numberofvertices`, `int *vertexlist`; a null pointer is `none`). -/
structure polygon where
  numberofvertices : Int
  vertexlist : Option (List Int)
deriving DecidableEq

/-- `tetgenio::facet` — fields touched by the bridge
(`numberofpolygons`, `polygon *polygonlist`, `numberofholes`, `REAL *holelist`). -/
structure facet (R : Type) where
  numberofpolygons : Int
  polygonlist : Option (List polygon)
  numberofholes : Int
  holelist : Option (List R)
deriving DecidableEq

/-- The `tetgenio` container, restricted to the fields the bridge reads or
writes.  The field defaults are the values `tetgenio::initialize()` (run by the
default constructor of the stack objects `in`, `out`) gives these fields:
zero counts, null pointers, `firstnumber = 0`. -/
structure tetgenio (R : Type) where
  firstnumber : Int := 0
  numberofpoints : Int := 0
  pointlist : Option (List R) := none
  numberoffacets : Int := 0
  facetlist : Option (List (facet R)) := none
  facetmarkerlist : Option (List Int) := none
  numberofholes : Int := 0
  holelist : Option (List R) := none
  numberofregions : Int := 0
  regionlist : Option (List R) := none
  numberoftetrahedra : Int := 0
  tetrahedronlist : Option (List Int) := none
deriving DecidableEq

/-- `struct MeshResult` from bindings.cpp: two owned buffers (null pointer =
`none`) and the two counts. -/
structure MeshResult (R : Type) where
  points : Option (List R)
  tetrahedra : Option (List Int)
  num_points : Int
  num_tetrahedra : Int
deriving DecidableEq

/-- The caller-owned memory the bridge borrows for the duration of the call:
the flat vertex buffer (`double *in_vertices`), the flat face-index buffer
(`int *in_faces`) and the option C string (`char *options`, null = `none`). -/
structure CallerMem (R : Type) where
  in_vertices : Nat → R
  in_faces : Nat → Int
  options : Option String

/-- The effect monad of the bridge body: state = caller memory, plus C++
exceptions (`Except.error ()` = some exception in flight).  The state is
threaded through a throw, as C++ memory survives stack unwinding. -/
def M (R : Type) (α : Type) : Type := CallerMem R → Except Unit α × CallerMem R

/-- Monadic return for `M`. -/
def mpure {R α : Type} (a : α) : M R α := fun s => (Except.ok a, s)

/-- Monadic bind for `M`: a raised exception skips the continuation. -/
def mbind {R α β : Type} (x : M R α) (f : α → M R β) : M R β := fun s =>
  match x s with
  | (Except.ok a, s') => f a s'
  | (Except.error e, s') => (Except.error e, s')

instance {R : Type} : Monad (M R) where
  pure := mpure
  bind := mbind

/-- Read one element of the caller's vertex buffer (`in_vertices[i]`). -/
def readVertex {R : Type} (i : Nat) : M R R :=
  fun s => (Except.ok (s.in_vertices i), s)

/-- Read one element of the caller's face-index buffer (`in_faces[i]`). -/
def readFaceIndex {R : Type} (i : Nat) : M R Int :=
  fun s => (Except.ok (s.in_faces i), s)

/-- Read the caller's option string (`options`, observing nullness and
contents; the code only ever reads it). -/
def readOptions {R : Type} : M R (Option String) :=
  fun s => (Except.ok s.options, s)

/-- Overwrite one element of the caller's vertex buffer.  The bridge never
does this; the primitive exists so that non-interference with caller memory is
a fact to prove about the translated code, not one built into the model. -/
def writeVertex {R : Type} (i : Nat) (v : R) : M R Unit :=
  fun s => (Except.ok (), { s with in_vertices := fun j => if j = i then v else s.in_vertices j })

/-- `new T[n]`: a negative array bound raises a C++ exception
(`std::bad_array_new_length`) before any element is touched. -/
def checkNew {R : Type} (n : Int) : M R Unit :=
  fun s => ((if n < 0 then Except.error () else Except.ok ()), s)

/-- Run a pure possibly-faulting computation (the abstract kernel / parser)
inside the bridge monad. -/
def liftE {R α : Type} (e : Except Unit α) : M R α :=
  fun s => (e, s)

/-- Monadic map over an index list, in order (the `for` loops of the source). -/
def mmap {R α : Type} (f : Nat → M R α) : List Nat → M R (List α)
  | [] => pure []
  | i :: is => f i >>= fun a => mmap f is >>= fun as => pure (a :: as)

/-- Lines 20–25 of bindings.cpp:
`in.pointlist = new REAL[in.numberofpoints * 3];` followed by
`for(int i=0; i < num_vertices * 3; i++) in.pointlist[i] = (REAL)in_vertices[i];`
(`in.numberofpoints` was just assigned `num_vertices`; `REAL` is `double`, so
the cast is the identity). -/
def buildPointList {R : Type} (num_vertices : Int) : M R (List R) :=
  checkNew (num_vertices * 3) >>= fun _ =>
  mmap readVertex (List.range (num_vertices * 3).toNat)

/-- Lines 37–49 of bindings.cpp, one iteration of the facet loop: the facet for
input triangle `i` has exactly one polygon with the 3 vertices
`in_faces[i*3], in_faces[i*3+1], in_faces[i*3+2]`, no holes, null hole list. -/
def buildFacet {R : Type} (i : Nat) : M R (facet R) :=
  readFaceIndex (i * 3) >>= fun v0 =>
  readFaceIndex (i * 3 + 1) >>= fun v1 =>
  readFaceIndex (i * 3 + 2) >>= fun v2 =>
  pure { numberofpolygons := 1,
         polygonlist := some [{ numberofvertices := 3, vertexlist := some [v0, v1, v2] }],
         numberofholes := 0,
         holelist := none }

/-- Lines 28–49: `in.facetlist = new tetgenio::facet[in.numberoffacets];`
(`in.numberoffacets` was just assigned `num_faces`) and the facet loop. -/
def buildFacetList {R : Type} (num_faces : Int) : M R (List (facet R)) :=
  checkNew num_faces >>= fun _ =>
  mmap buildFacet (List.range num_faces.toNat)

/-- Lines 17–49: the whole input-marshaling block, producing the `in`
container handed to the kernel.  Fields the bridge does not assign keep their
`tetgenio::initialize()` defaults. -/
def buildInput {R : Type} (num_vertices num_faces : Int) : M R (tetgenio R) :=
  buildPointList num_vertices >>= fun pl =>
  buildFacetList num_faces >>= fun fl =>
  pure { firstnumber := 0,
         numberofpoints := num_vertices,
         pointlist := some pl,
         numberoffacets := num_faces,
         facetlist := some fl,
         facetmarkerlist := none,
         numberofholes := 0,
         holelist := none,
         numberofregions := 0,
         regionlist := none }

/-- Lines 56–60: `if (options != nullptr && options[0] != '\0')
b.parse_commandline(options); else b.parse_commandline((char*)"pqz");`
(`options[0] != '\0'` on a C string is exactly non-emptiness). -/
def buildBehavior {B : Type} (parse : String → Except Unit B)
    (options : Option String) : Except Unit B :=
  match options with
  | some s => if s ≠ "" then parse s else parse "pqz"
  | none => parse "pqz"

/-- `std::memcpy(dst, src, n * sizeof(elem))` into a freshly allocated buffer
of `n` elements: the copy holds element `i` of the source for every `i < n`.
Reads past the source's extent (or from a null source) are undefined behavior
in C and yield the `default` junk value here. -/
def memcpyFrom {α : Type} [Inhabited α] (src : Option (List α)) (n : Nat) : List α :=
  (List.range n).map (fun i => (src.getD []).getD i default)

/-- Lines 65–81: `MeshResult* result = new MeshResult(); ...` — both buffer
fields start null, the counts are copied from `out`, and each buffer is
allocated (`new double[P*3]` / `new int[T*4]`) and `memcpy`-filled only under
`out.numberofpoints > 0` / `out.numberoftetrahedra > 0`. -/
def copyOutput {R : Type} [Inhabited R] (out : tetgenio R) : M R (MeshResult R) :=
  (pure { points := none, tetrahedra := none,
          num_points := out.numberofpoints,
          num_tetrahedra := out.numberoftetrahedra } : M R (MeshResult R)) >>= fun r0 =>
  (if 0 < out.numberofpoints then
      checkNew (out.numberofpoints * 3) >>= fun _ =>
      pure { r0 with points := some (memcpyFrom out.pointlist (out.numberofpoints * 3).toNat) }
    else pure r0) >>= fun r1 =>
  (if 0 < out.numberoftetrahedra then
      checkNew (out.numberoftetrahedra * 4) >>= fun _ =>
      pure { r1 with tetrahedra := some (memcpyFrom out.tetrahedronlist (out.numberoftetrahedra * 4).toNat) }
    else pure r1) >>= fun r2 =>
  pure r2

/-- The body of the `try` block of `tetrahedralize_mesh` (lines 16–82):
marshal the input, build the behavior descriptor, invoke the kernel
(`tetrahedralize(&b, &in, &out)`), copy the output. -/
def tetrahedralize_mesh_body {R B : Type} [Inhabited R]
    (kernel : B → tetgenio R → Except Unit (tetgenio R))
    (parse : String → Except Unit B)
    (num_vertices num_faces : Int) : M R (MeshResult R) :=
  buildInput num_vertices num_faces >>= fun inp =>
  readOptions >>= fun opts =>
  liftE (buildBehavior parse opts) >>= fun b =>
  liftE (kernel b inp) >>= fun out =>
  copyOutput out

/-- Lines 14–87: `tetrahedralize_mesh` itself.  The `try { ... } catch (...)
{ return nullptr; }` barrier: a normal return of the body is returned as a
non-null `MeshResult*` (`some`), any exception in flight becomes the null
sentinel (`none`), and nothing else can leave the function. -/
def tetrahedralize_mesh {R B : Type} [Inhabited R]
    (kernel : B → tetgenio R → Except Unit (tetgenio R))
    (parse : String → Except Unit B)
    (num_vertices num_faces : Int) :
    CallerMem R → Option (MeshResult R) × CallerMem R :=
  fun s =>
    match tetrahedralize_mesh_body kernel parse num_vertices num_faces s with
    | (Except.ok r, s') => (some r, s')
    | (Except.error _, s') => (none, s')

/-- Observable deallocation events of `free_mesh_result`. -/
inductive FreeEvent where
  | freePoints
  | freeTetrahedra
  | freeResult
deriving DecidableEq

/-- Lines 89–95: `free_mesh_result`.  A null argument does nothing; otherwise
`delete[] result->points` runs exactly when that pointer is non-null, likewise
`delete[] result->tetrahedra`, and finally `delete result`.  The returned
trace lists the frees performed, in program order. -/
def free_mesh_result {R : Type} (result : Option (MeshResult R)) : List FreeEvent :=
  match result with
  | none => []
  | some r =>
    (if r.points.isSome then [FreeEvent.freePoints] else []) ++
      ((if r.tetrahedra.isSome then [FreeEvent.freeTetrahedra] else []) ++
        [FreeEvent.freeResult])

/-! ### Pure characterization of a call -/

/-- The facet value the bridge builds for input triangle `i` (value of
`buildFacet i` at memory `s`). -/
def mkFacetPure {R : Type} (s : CallerMem R) (i : Nat) : facet R :=
  { numberofpolygons := 1,
    polygonlist :=
      some [{ numberofvertices := 3,
              vertexlist := some [s.in_faces (i * 3), s.in_faces (i * 3 + 1),
                                  s.in_faces (i * 3 + 2)] }],
    numberofholes := 0,
    holelist := none }

/-- The `in` container the bridge hands to the kernel (value of
`buildInput` on the non-faulting path). -/
def mkInputPure {R : Type} (num_vertices num_faces : Int) (s : CallerMem R) : tetgenio R :=
  { firstnumber := 0,
    numberofpoints := num_vertices,
    pointlist := some ((List.range (num_vertices * 3).toNat).map s.in_vertices),
    numberoffacets := num_faces,
    facetlist := some ((List.range num_faces.toNat).map (mkFacetPure s)),
    facetmarkerlist := none,
    numberofholes := 0,
    holelist := none,
    numberofregions := 0,
    regionlist := none }

/-- The `MeshResult` the bridge builds from a kernel output container. -/
def copyOutputPure {R : Type} [Inhabited R] (out : tetgenio R) : MeshResult R :=
  { points :=
      if 0 < out.numberofpoints then
        some (memcpyFrom out.pointlist (out.numberofpoints * 3).toNat)
      else none,
    tetrahedra :=
      if 0 < out.numberoftetrahedra then
        some (memcpyFrom out.tetrahedronlist (out.numberoftetrahedra * 4).toNat)
      else none,
    num_points := out.numberofpoints,
    num_tetrahedra := out.numberoftetrahedra }

/-- The outcome of the whole `try` body as a pure function of the initial
caller memory: fault on a negative array bound, else parse, invoke the kernel
on the marshaled input, and package the output. -/
def runSpec {R B : Type} [Inhabited R]
    (kernel : B → tetgenio R → Except Unit (tetgenio R))
    (parse : String → Except Unit B)
    (num_vertices num_faces : Int) (s : CallerMem R) : Except Unit (MeshResult R) :=
  if num_vertices * 3 < 0 then Except.error ()
  else if num_faces < 0 then Except.error ()
  else
    (buildBehavior parse s.options).bind (fun b =>
      (kernel b (mkInputPure num_vertices num_faces s)).bind (fun out =>
        Except.ok (copyOutputPure out)))

/-! ### Run lemmas -/

theorem mpure_apply {R α : Type} (a : α) (s : CallerMem R) :
    (pure a : M R α) s = (Except.ok a, s) := rfl

theorem mbind_apply_ok {R α β : Type} (x : M R α) (f : α → M R β)
    (s s' : CallerMem R) (a : α) (hx : x s = (Except.ok a, s')) :
    (x >>= f) s = f a s' := by
  show mbind x f s = f a s'
  unfold mbind
  rw [hx]

theorem mbind_apply_error {R α β : Type} (x : M R α) (f : α → M R β)
    (s s' : CallerMem R) (e : Unit) (hx : x s = (Except.error e, s')) :
    (x >>= f) s = (Except.error e, s') := by
  show mbind x f s = (Except.error e, s')
  unfold mbind
  rw [hx]

theorem mmap_apply {R α : Type} (f : Nat → M R α) (v : Nat → CallerMem R → α)
    (hf : ∀ i s, f i s = (Except.ok (v i s), s)) (l : List Nat) (s : CallerMem R) :
    mmap f l s = (Except.ok (l.map (fun i => v i s)), s) := by
  induction l with
  | nil => rfl
  | cons i is ih =>
    show (f i >>= fun a => mmap f is >>= fun as => pure (a :: as)) s = _
    rw [mbind_apply_ok _ _ s s (v i s) (hf i s)]
    rw [mbind_apply_ok _ _ s s (is.map (fun j => v j s)) ih]
    rfl

theorem buildFacet_apply {R : Type} (i : Nat) (s : CallerMem R) :
    buildFacet i s = (Except.ok (mkFacetPure s i), s) := rfl

theorem buildPointList_apply {R : Type} (num_vertices : Int) (s : CallerMem R) :
    buildPointList num_vertices s =
      ((if num_vertices * 3 < 0 then Except.error ()
        else Except.ok ((List.range (num_vertices * 3).toNat).map s.in_vertices)), s) := by
  unfold buildPointList
  by_cases h : num_vertices * 3 < 0
  · rw [mbind_apply_error _ _ s s () (by simp [checkNew, h])]
    simp [h]
  · rw [mbind_apply_ok _ _ s s () (by simp [checkNew, h])]
    rw [mmap_apply readVertex (fun i t => t.in_vertices i) (fun i t => rfl)]
    simp [h]

theorem buildFacetList_apply {R : Type} (num_faces : Int) (s : CallerMem R) :
    buildFacetList num_faces s =
      ((if num_faces < 0 then Except.error ()
        else Except.ok ((List.range num_faces.toNat).map (mkFacetPure s))), s) := by
  unfold buildFacetList
  by_cases h : num_faces < 0
  · rw [mbind_apply_error _ _ s s () (by simp [checkNew, h])]
    simp [h]
  · rw [mbind_apply_ok _ _ s s () (by simp [checkNew, h])]
    rw [mmap_apply buildFacet (fun i t => mkFacetPure t i) (fun i t => rfl)]
    simp [h]

theorem buildInput_apply {R : Type} (num_vertices num_faces : Int) (s : CallerMem R) :
    buildInput num_vertices num_faces s =
      ((if num_vertices * 3 < 0 then Except.error ()
        else if num_faces < 0 then Except.error ()
        else Except.ok (mkInputPure num_vertices num_faces s)), s) := by
  unfold buildInput
  by_cases h1 : num_vertices * 3 < 0
  · rw [mbind_apply_error _ _ s s () (by rw [buildPointList_apply]; simp [h1])]
    simp [h1]
  · rw [mbind_apply_ok _ _ s s ((List.range (num_vertices * 3).toNat).map s.in_vertices)
      (by rw [buildPointList_apply]; simp [h1])]
    by_cases h2 : num_faces < 0
    · rw [mbind_apply_error _ _ s s () (by rw [buildFacetList_apply]; simp [h2])]
      simp [h1, h2]
    · rw [mbind_apply_ok _ _ s s ((List.range num_faces.toNat).map (mkFacetPure s))
        (by rw [buildFacetList_apply]; simp [h2])]
      simp [h1, h2, mpure_apply, mkInputPure]

theorem copyOutput_apply {R : Type} [Inhabited R] (out : tetgenio R) (s : CallerMem R) :
    copyOutput out s = (Except.ok (copyOutputPure out), s) := by
  unfold copyOutput
  rw [mbind_apply_ok _ _ s s _ (mpure_apply _ s)]
  by_cases hp : 0 < out.numberofpoints
  · have hnp : ¬ out.numberofpoints * 3 < 0 := by omega
    rw [if_pos hp]
    rw [mbind_apply_ok _ _ s s _
      (mbind_apply_ok _ _ s s () (by simp [checkNew, hnp]))]
    by_cases ht : 0 < out.numberoftetrahedra
    · have hnt : ¬ out.numberoftetrahedra * 4 < 0 := by omega
      rw [if_pos ht]
      rw [mbind_apply_ok _ _ s s _
        (mbind_apply_ok _ _ s s () (by simp [checkNew, hnt]))]
      simp [copyOutputPure, hp, ht, mpure_apply]
    · rw [if_neg ht]
      rw [mbind_apply_ok _ _ s s _ (mpure_apply _ s)]
      simp [copyOutputPure, hp, ht, mpure_apply]
  · rw [if_neg hp]
    rw [mbind_apply_ok _ _ s s _ (mpure_apply _ s)]
    by_cases ht : 0 < out.numberoftetrahedra
    · have hnt : ¬ out.numberoftetrahedra * 4 < 0 := by omega
      rw [if_pos ht]
      rw [mbind_apply_ok _ _ s s _
        (mbind_apply_ok _ _ s s () (by simp [checkNew, hnt]))]
      simp [copyOutputPure, hp, ht, mpure_apply]
    · rw [if_neg ht]
      rw [mbind_apply_ok _ _ s s _ (mpure_apply _ s)]
      simp [copyOutputPure, hp, ht, mpure_apply]

theorem tetrahedralize_mesh_body_apply {R B : Type} [Inhabited R]
    (kernel : B → tetgenio R → Except Unit (tetgenio R))
    (parse : String → Except Unit B)
    (num_vertices num_faces : Int) (s : CallerMem R) :
    tetrahedralize_mesh_body kernel parse num_vertices num_faces s =
      (runSpec kernel parse num_vertices num_faces s, s) := by
  unfold tetrahedralize_mesh_body runSpec
  by_cases h1 : num_vertices * 3 < 0
  · rw [mbind_apply_error _ _ s s () (by rw [buildInput_apply]; simp [h1])]
    simp [h1]
  · by_cases h2 : num_faces < 0
    · rw [mbind_apply_error _ _ s s () (by rw [buildInput_apply]; simp [h1, h2])]
      simp [h1, h2]
    · rw [mbind_apply_ok _ _ s s (mkInputPure num_vertices num_faces s)
        (by rw [buildInput_apply]; simp [h1, h2])]
      rw [mbind_apply_ok readOptions _ s s s.options rfl]
      cases hb : buildBehavior parse s.options with
      | error e =>
        rw [mbind_apply_error _ _ s s e (by simp [liftE, hb])]
        simp [h1, h2, hb, Except.bind]
      | ok b =>
        rw [mbind_apply_ok _ _ s s b (by simp [liftE, hb])]
        cases hk : kernel b (mkInputPure num_vertices num_faces s) with
        | error e =>
          rw [mbind_apply_error _ _ s s e (by simp [liftE, hk])]
          simp [h1, h2, hb, hk, Except.bind]
        | ok out =>
          rw [mbind_apply_ok _ _ s s out (by simp [liftE, hk])]
          rw [copyOutput_apply]
          simp [h1, h2, hb, hk, Except.bind]

theorem tetrahedralize_mesh_apply {R B : Type} [Inhabited R]
    (kernel : B → tetgenio R → Except Unit (tetgenio R))
    (parse : String → Except Unit B)
    (num_vertices num_faces : Int) (s : CallerMem R) :
    tetrahedralize_mesh kernel parse num_vertices num_faces s =
      ((match runSpec kernel parse num_vertices num_faces s with
        | Except.ok r => some r
        | Except.error _ => none), s) := by
  unfold tetrahedralize_mesh
  rw [tetrahedralize_mesh_body_apply]
  cases runSpec kernel parse num_vertices num_faces s <;> rfl

/-! ### Helper lemmas -/

theorem memcpyFrom_length {α : Type} [Inhabited α] (src : Option (List α)) (n : Nat) :
    (memcpyFrom src n).length = n := by
  simp [memcpyFrom]

theorem memcpyFrom_eq {α : Type} [Inhabited α] (pl : List α) :
    memcpyFrom (some pl) pl.length = pl := by
  unfold memcpyFrom
  apply List.ext_getElem (by simp)
  intro i h1 h2
  simp only [List.getElem_map, List.getElem_range]
  show pl.getD i default = pl[i]
  exact List.getD_eq_getElem pl default h2

/-- Success analysis of a call: a non-faulting run means both array bounds
were non-negative, the parser succeeded on the string chosen by the bridge,
the kernel succeeded on the marshaled input, and the result is the packaged
copy of the kernel's output. -/
theorem runSpec_ok {R B : Type} [Inhabited R]
    (kernel : B → tetgenio R → Except Unit (tetgenio R))
    (parse : String → Except Unit B)
    (num_vertices num_faces : Int) (s : CallerMem R) (r : MeshResult R)
    (h : runSpec kernel parse num_vertices num_faces s = Except.ok r) :
    ¬ num_vertices * 3 < 0 ∧ ¬ num_faces < 0 ∧
    ∃ b out, buildBehavior parse s.options = Except.ok b ∧
      kernel b (mkInputPure num_vertices num_faces s) = Except.ok out ∧
      r = copyOutputPure out := by
  unfold runSpec at h
  by_cases h1 : num_vertices * 3 < 0
  · simp [h1] at h
  · by_cases h2 : num_faces < 0
    · simp [h1, h2] at h
    · refine ⟨h1, h2, ?_⟩
      rw [if_neg h1, if_neg h2] at h
      cases hb : buildBehavior parse s.options with
      | error e => rw [hb] at h; simp [Except.bind] at h
      | ok b =>
        rw [hb] at h
        simp only [Except.bind] at h
        cases hk : kernel b (mkInputPure num_vertices num_faces s) with
        | error e => rw [hk] at h; simp [Except.bind] at h
        | ok out =>
          rw [hk] at h
          simp only [Except.bind, Except.ok.injEq] at h
          exact ⟨b, out, rfl, hk, h.symm⟩

/-- Two caller memories with element-wise equal buffers and equal option
strings are equal. -/
theorem CallerMem_eq {R : Type} (s₁ s₂ : CallerMem R)
    (hv : ∀ i, s₁.in_vertices i = s₂.in_vertices i)
    (hf : ∀ i, s₁.in_faces i = s₂.in_faces i)
    (ho : s₁.options = s₂.options) : s₁ = s₂ := by
  cases s₁ with
  | mk v1 f1 o1 =>
    cases s₂ with
    | mk v2 f2 o2 =>
      simp only [CallerMem.mk.injEq]
      exact ⟨funext hv, funext hf, ho⟩

/-- The marshaled kernel input depends only on the first `3N` vertex-buffer
elements and the first `3F` face-buffer elements. -/
theorem mkInputPure_congr {R : Type} (num_vertices num_faces : Int) (s₁ s₂ : CallerMem R)
    (hv : ∀ i, i < (num_vertices * 3).toNat → s₁.in_vertices i = s₂.in_vertices i)
    (hf : ∀ j, j < (num_faces * 3).toNat → s₁.in_faces j = s₂.in_faces j) :
    mkInputPure num_vertices num_faces s₁ = mkInputPure num_vertices num_faces s₂ := by
  unfold mkInputPure
  have h1 : (List.range (num_vertices * 3).toNat).map s₁.in_vertices =
      (List.range (num_vertices * 3).toNat).map s₂.in_vertices := by
    apply List.map_congr_left
    intro i hi
    exact hv i (List.mem_range.mp hi)
  have h2 : (List.range num_faces.toNat).map (mkFacetPure s₁) =
      (List.range num_faces.toNat).map (mkFacetPure s₂) := by
    apply List.map_congr_left
    intro i hi
    have hi3 : i < num_faces.toNat := List.mem_range.mp hi
    unfold mkFacetPure
    rw [hf (i * 3) (by omega), hf (i * 3 + 1) (by omega), hf (i * 3 + 2) (by omega)]
  rw [h1, h2]

/-- The option string the bridge actually hands to the kernel's parser:
the caller's string when non-null and non-empty, the default `"pqz"`
otherwise. -/
def effectiveOptions : Option String → String
  | none => "pqz"
  | some s => if s = "" then "pqz" else s

theorem buildBehavior_eq {B : Type} (parse : String → Except Unit B)
    (options : Option String) :
    buildBehavior parse options = parse (effectiveOptions options) := by
  cases options with
  | none => rfl
  | some s =>
    by_cases h : s = ""
    · simp [buildBehavior, effectiveOptions, h]
    · simp [buildBehavior, effectiveOptions, h]

/-! ### Concrete fixtures used by the witness theorems -/

/-- A concrete kernel output container: 2 points, 1 tetrahedron. -/
def exOut : tetgenio Int :=
  { numberofpoints := 2, pointlist := some [10, 11, 12, 13, 14, 15],
    numberoftetrahedra := 1, tetrahedronlist := some [0, 1, 2, 3] }

/-- A concrete kernel that always succeeds with `exOut`. -/
def exKernel : Unit → tetgenio Int → Except Unit (tetgenio Int) :=
  fun _ _ => Except.ok exOut

/-- A concrete kernel that always raises a fault. -/
def exKernelFail : Unit → tetgenio Int → Except Unit (tetgenio Int) :=
  fun _ _ => Except.error ()

/-- A concrete option parser that accepts every string. -/
def exParse : String → Except Unit Unit := fun _ => Except.ok ()

/-- A concrete caller memory: all-zero buffers, null option string. -/
def exMem : CallerMem Int :=
  { in_vertices := fun _ => 0, in_faces := fun _ => 0, options := none }

/-- A concrete caller memory whose option string is `"q"`. -/
def exMemOpts : CallerMem Int :=
  { in_vertices := fun _ => 0, in_faces := fun _ => 0, options := some "q" }

/-- The result `tetrahedralize_mesh` builds from `exOut`. -/
def exResult : MeshResult Int := copyOutputPure exOut

/-! ### The claims -/

/-- C1: every exception raised inside the body of `tetrahedralize_mesh`
(input marshaling, kernel invocation, output copying) is converted by the
`try`/`catch (...)` barrier into the null `Failure` sentinel, and a normal
return of the body is handed back as a non-null result — by the return type
of the embedding, no exception can propagate out of `tetrahedralize_mesh`
to the caller. -/
theorem claim_C1_fault_containment {R B : Type} [Inhabited R]
    (kernel : B → tetgenio R → Except Unit (tetgenio R))
    (parse : String → Except Unit B)
    (num_vertices num_faces : Int) (s s' : CallerMem R)
    (e : Unit) (r : MeshResult R) :
    (tetrahedralize_mesh_body kernel parse num_vertices num_faces s = (Except.error e, s') →
      tetrahedralize_mesh kernel parse num_vertices num_faces s = (none, s')) ∧
    (tetrahedralize_mesh_body kernel parse num_vertices num_faces s = (Except.ok r, s') →
      tetrahedralize_mesh kernel parse num_vertices num_faces s = (some r, s')) := by
  constructor
  · intro h
    unfold tetrahedralize_mesh
    rw [h]
  · intro h
    unfold tetrahedralize_mesh
    rw [h]

/-- Witness for C1: a kernel that raises a fault makes the call return the
null sentinel. -/
theorem claim_C1_witness :
    tetrahedralize_mesh exKernelFail exParse 0 0 exMem = (none, exMem) :=
  (claim_C1_fault_containment exKernelFail exParse 0 0 exMem exMem ()
    { points := none, tetrahedra := none, num_points := 0, num_tetrahedra := 0 }).1 rfl

/-- C2: a non-null result of `tetrahedralize_mesh` is fully populated:
given that the kernel reports non-negative counts (the real kernel's output
container always does), the result's counts satisfy `P ≥ 0` and `T ≥ 0`, the
point buffer is an allocation of exactly `3*P` elements when `P > 0` and null
when `P = 0`, and the tetrahedron buffer is an allocation of exactly `4*T`
elements when `T > 0` and null when `T = 0`. -/
theorem claim_C2_result_shape {R B : Type} [Inhabited R]
    (kernel : B → tetgenio R → Except Unit (tetgenio R))
    (parse : String → Except Unit B)
    (num_vertices num_faces : Int) (s s' : CallerMem R) (r : MeshResult R)
    (hk : ∀ b out, kernel b (mkInputPure num_vertices num_faces s) = Except.ok out →
      0 ≤ out.numberofpoints ∧ 0 ≤ out.numberoftetrahedra)
    (h : tetrahedralize_mesh kernel parse num_vertices num_faces s = (some r, s')) :
    0 ≤ r.num_points ∧ 0 ≤ r.num_tetrahedra ∧
    (0 < r.num_points → ∃ l, r.points = some l ∧ l.length = 3 * r.num_points.toNat) ∧
    (r.num_points = 0 → r.points = none) ∧
    (0 < r.num_tetrahedra → ∃ l, r.tetrahedra = some l ∧ l.length = 4 * r.num_tetrahedra.toNat) ∧
    (r.num_tetrahedra = 0 → r.tetrahedra = none) := by
  rw [tetrahedralize_mesh_apply] at h
  cases hrs : runSpec kernel parse num_vertices num_faces s with
  | error e => rw [hrs] at h; simp at h
  | ok r0 =>
    rw [hrs] at h
    simp only [Prod.mk.injEq, Option.some.injEq] at h
    obtain ⟨hr, _⟩ := h
    obtain ⟨-, -, b, out, hb, hkout, hcopy⟩ :=
      runSpec_ok kernel parse num_vertices num_faces s r0 hrs
    obtain ⟨hP, hT⟩ := hk b out hkout
    subst hr
    subst hcopy
    refine ⟨hP, hT, ?_, ?_, ?_, ?_⟩
    · intro hpos
      simp only [copyOutputPure] at hpos ⊢
      rw [if_pos hpos]
      exact ⟨_, rfl, by rw [memcpyFrom_length]; omega⟩
    · intro hzero
      simp only [copyOutputPure] at hzero ⊢
      rw [if_neg (by omega)]
    · intro hpos
      simp only [copyOutputPure] at hpos ⊢
      rw [if_pos hpos]
      exact ⟨_, rfl, by rw [memcpyFrom_length]; omega⟩
    · intro hzero
      simp only [copyOutputPure] at hzero ⊢
      rw [if_neg (by omega)]

/-- Witness for C2 at a concrete successful call. -/
theorem claim_C2_witness :
    0 ≤ exResult.num_points ∧ 0 ≤ exResult.num_tetrahedra ∧
    (0 < exResult.num_points →
      ∃ l, exResult.points = some l ∧ l.length = 3 * exResult.num_points.toNat) ∧
    (exResult.num_points = 0 → exResult.points = none) ∧
    (0 < exResult.num_tetrahedra →
      ∃ l, exResult.tetrahedra = some l ∧ l.length = 4 * exResult.num_tetrahedra.toNat) ∧
    (exResult.num_tetrahedra = 0 → exResult.tetrahedra = none) :=
  claim_C2_result_shape exKernel exParse 0 0 exMem exMem exResult
    (fun b out h => by
      injection h with h2
      rw [← h2]
      refine ⟨by decide, by decide⟩)
    rfl

/-- C3: on a successful call the returned buffers hold exactly the kernel's
output contents, element for element with no transformation: whenever the
kernel's output container carries a point buffer of the advertised `3*P`
extent (resp. a tetrahedron buffer of `4*T` extent), the freshly allocated
result buffer equals it, and the counts are copied unchanged. -/
theorem claim_C3_deep_copy {R B : Type} [Inhabited R]
    (kernel : B → tetgenio R → Except Unit (tetgenio R))
    (parse : String → Except Unit B)
    (num_vertices num_faces : Int) (s s' : CallerMem R) (r : MeshResult R)
    (h : tetrahedralize_mesh kernel parse num_vertices num_faces s = (some r, s')) :
    ∃ b out, buildBehavior parse s.options = Except.ok b ∧
      kernel b (mkInputPure num_vertices num_faces s) = Except.ok out ∧
      r.num_points = out.numberofpoints ∧
      r.num_tetrahedra = out.numberoftetrahedra ∧
      (∀ pl, out.pointlist = some pl → pl.length = (out.numberofpoints * 3).toNat →
        0 < out.numberofpoints → r.points = some pl) ∧
      (∀ tl, out.tetrahedronlist = some tl → tl.length = (out.numberoftetrahedra * 4).toNat →
        0 < out.numberoftetrahedra → r.tetrahedra = some tl) := by
  rw [tetrahedralize_mesh_apply] at h
  cases hrs : runSpec kernel parse num_vertices num_faces s with
  | error e => rw [hrs] at h; simp at h
  | ok r0 =>
    rw [hrs] at h
    simp only [Prod.mk.injEq, Option.some.injEq] at h
    obtain ⟨hr, _⟩ := h
    obtain ⟨-, -, b, out, hb, hkout, hcopy⟩ :=
      runSpec_ok kernel parse num_vertices num_faces s r0 hrs
    subst hr
    subst hcopy
    refine ⟨b, out, hb, hkout, rfl, rfl, ?_, ?_⟩
    · intro pl hpl hlen hpos
      simp only [copyOutputPure]
      rw [if_pos hpos, hpl, ← hlen, memcpyFrom_eq]
    · intro tl htl hlen hpos
      simp only [copyOutputPure]
      rw [if_pos hpos, htl, ← hlen, memcpyFrom_eq]

/-- Witness for C3 at a concrete successful call. -/
theorem claim_C3_witness :
    ∃ b out, buildBehavior exParse exMem.options = Except.ok b ∧
      exKernel b (mkInputPure 0 0 exMem) = Except.ok out ∧
      exResult.num_points = out.numberofpoints ∧
      exResult.num_tetrahedra = out.numberoftetrahedra ∧
      (∀ pl, out.pointlist = some pl → pl.length = (out.numberofpoints * 3).toNat →
        0 < out.numberofpoints → exResult.points = some pl) ∧
      (∀ tl, out.tetrahedronlist = some tl → tl.length = (out.numberoftetrahedra * 4).toNat →
        0 < out.numberoftetrahedra → exResult.tetrahedra = some tl) :=
  claim_C3_deep_copy exKernel exParse 0 0 exMem exMem exResult rfl

/-- C4: `free_mesh_result` on the null sentinel performs no deallocation at
all (and, being a total function of its argument, can be repeated freely);
on a non-null result it frees the point buffer exactly when that buffer is
allocated, frees the tetrahedron buffer exactly when that one is allocated,
each at most once, and always frees the `MeshResult` record itself, exactly
once and as the last action. -/
theorem claim_C4_release {R : Type} :
    free_mesh_result (R := R) none = [] ∧
    ∀ r : MeshResult R,
      ((FreeEvent.freePoints ∈ free_mesh_result (some r)) ↔ r.points.isSome = true) ∧
      ((FreeEvent.freeTetrahedra ∈ free_mesh_result (some r)) ↔ r.tetrahedra.isSome = true) ∧
      (free_mesh_result (some r)).count FreeEvent.freePoints ≤ 1 ∧
      (free_mesh_result (some r)).count FreeEvent.freeTetrahedra ≤ 1 ∧
      (free_mesh_result (some r)).count FreeEvent.freeResult = 1 ∧
      (free_mesh_result (some r)).getLast? = some FreeEvent.freeResult := by
  refine ⟨rfl, fun r => ?_⟩
  obtain ⟨p, t, np, nt⟩ := r
  cases p <;> cases t <;>
    simp [free_mesh_result, List.count_cons, List.count_nil]

/-- C5: the string handed to the kernel's command-line parser is the caller's
option string verbatim when it is non-null and non-empty, and the built-in
default `"pqz"` when it is null or empty; consequently the whole call depends
on the parser only through its value at that one string. -/
theorem claim_C5_option_forwarding {R B : Type} [Inhabited R]
    (kernel : B → tetgenio R → Except Unit (tetgenio R))
    (parse₁ parse₂ : String → Except Unit B)
    (num_vertices num_faces : Int) (s : CallerMem R)
    (hagree : parse₁ (effectiveOptions s.options) = parse₂ (effectiveOptions s.options)) :
    buildBehavior parse₁ s.options = parse₁ (effectiveOptions s.options) ∧
    (∀ str, s.options = some str → str ≠ "" → buildBehavior parse₁ s.options = parse₁ str) ∧
    ((s.options = none ∨ s.options = some "") →
      buildBehavior parse₁ s.options = parse₁ "pqz") ∧
    tetrahedralize_mesh kernel parse₁ num_vertices num_faces s =
      tetrahedralize_mesh kernel parse₂ num_vertices num_faces s := by
  refine ⟨buildBehavior_eq parse₁ s.options, ?_, ?_, ?_⟩
  · intro str hstr hne
    rw [buildBehavior_eq parse₁ s.options, hstr]
    simp [effectiveOptions, hne]
  · intro hcase
    rw [buildBehavior_eq parse₁ s.options]
    rcases hcase with hN | hE
    · rw [hN]; rfl
    · rw [hE]; simp [effectiveOptions]
  · rw [tetrahedralize_mesh_apply, tetrahedralize_mesh_apply]
    unfold runSpec
    rw [buildBehavior_eq parse₁ s.options, buildBehavior_eq parse₂ s.options, hagree]

/-- Witness for C5: a non-empty option string `"q"` is forwarded verbatim. -/
theorem claim_C5_witness :
    buildBehavior exParse exMemOpts.options = exParse (effectiveOptions exMemOpts.options) ∧
    (∀ str, exMemOpts.options = some str → str ≠ "" →
      buildBehavior exParse exMemOpts.options = exParse str) ∧
    ((exMemOpts.options = none ∨ exMemOpts.options = some "") →
      buildBehavior exParse exMemOpts.options = exParse "pqz") ∧
    tetrahedralize_mesh exKernel exParse 0 0 exMemOpts =
      tetrahedralize_mesh exKernel exParse 0 0 exMemOpts :=
  claim_C5_option_forwarding exKernel exParse exParse 0 0 exMemOpts rfl

/-- C6: for non-negative counts, the input container handed to the kernel has
one facet per input triangle; facet `i` has exactly one polygon, that polygon
has exactly the 3 vertices `in_faces[3i], in_faces[3i+1], in_faces[3i+2]` in
that order, the facet has zero holes and a null hole list, and the container
carries no facet markers, zero holes and zero regions (all null/zeroed). -/
theorem claim_C6_facet_marshaling {R : Type} (num_vertices num_faces : Int)
    (s : CallerMem R) (hnv : 0 ≤ num_vertices) (hnf : 0 ≤ num_faces) :
    ∃ io, buildInput num_vertices num_faces s = (Except.ok io, s) ∧
      io.facetmarkerlist = none ∧ io.numberofholes = 0 ∧ io.holelist = none ∧
      io.numberofregions = 0 ∧ io.regionlist = none ∧
      ∃ fl, io.facetlist = some fl ∧ fl.length = num_faces.toNat ∧
        ∀ i (hi : i < fl.length),
          fl.get ⟨i, hi⟩ =
            { numberofpolygons := 1,
              polygonlist :=
                some [{ numberofvertices := 3,
                        vertexlist := some [s.in_faces (3 * i), s.in_faces (3 * i + 1),
                                            s.in_faces (3 * i + 2)] }],
              numberofholes := 0,
              holelist := none } := by
  refine ⟨mkInputPure num_vertices num_faces s, ?_, rfl, rfl, rfl, rfl, rfl, ?_⟩
  · rw [buildInput_apply]
    rw [if_neg (by omega), if_neg (by omega)]
  · refine ⟨(List.range num_faces.toNat).map (mkFacetPure s), rfl, by simp, ?_⟩
    intro i hi
    have hi2 : i < num_faces.toNat := by simpa using hi
    simp only [List.get_eq_getElem, List.getElem_map, List.getElem_range]
    unfold mkFacetPure
    rw [Nat.mul_comm i 3]

/-- Witness for C6 at one triangle. -/
theorem claim_C6_witness :
    ∃ io, buildInput 1 1 exMem = (Except.ok io, exMem) ∧
      io.facetmarkerlist = none ∧ io.numberofholes = 0 ∧ io.holelist = none ∧
      io.numberofregions = 0 ∧ io.regionlist = none ∧
      ∃ fl, io.facetlist = some fl ∧ fl.length = (1 : Int).toNat ∧
        ∀ i (hi : i < fl.length),
          fl.get ⟨i, hi⟩ =
            { numberofpolygons := 1,
              polygonlist :=
                some [{ numberofvertices := 3,
                        vertexlist := some [exMem.in_faces (3 * i), exMem.in_faces (3 * i + 1),
                                            exMem.in_faces (3 * i + 2)] }],
              numberofholes := 0,
              holelist := none } :=
  claim_C6_facet_marshaling 1 1 exMem (by decide) (by decide)

/-- C7: the call treats the count parameters as authoritative — its outcome
depends on the caller's vertex buffer only through the elements at indices
`0 .. 3*num_vertices - 1` and on the face-index buffer only through the
elements at indices `0 .. 3*num_faces - 1`; no element past those bounds is
ever accessed. -/
theorem claim_C7_bounded_reads {R B : Type} [Inhabited R]
    (kernel : B → tetgenio R → Except Unit (tetgenio R))
    (parse : String → Except Unit B)
    (num_vertices num_faces : Int) (s₁ s₂ : CallerMem R)
    (hv : ∀ i, i < (3 * num_vertices).toNat → s₁.in_vertices i = s₂.in_vertices i)
    (hf : ∀ j, j < (3 * num_faces).toNat → s₁.in_faces j = s₂.in_faces j)
    (ho : s₁.options = s₂.options) :
    (tetrahedralize_mesh kernel parse num_vertices num_faces s₁).1 =
      (tetrahedralize_mesh kernel parse num_vertices num_faces s₂).1 := by
  rw [tetrahedralize_mesh_apply, tetrahedralize_mesh_apply]
  have hrs : runSpec kernel parse num_vertices num_faces s₁ =
      runSpec kernel parse num_vertices num_faces s₂ := by
    unfold runSpec
    rw [ho, mkInputPure_congr num_vertices num_faces s₁ s₂
      (fun i hi => hv i (by omega)) (fun j hj => hf j (by omega))]
  rw [hrs]

/-- Witness for C7. -/
theorem claim_C7_witness :
    (tetrahedralize_mesh exKernel exParse 2 1 exMem).1 =
      (tetrahedralize_mesh exKernel exParse 2 1 exMem).1 :=
  claim_C7_bounded_reads exKernel exParse 2 1 exMem exMem
    (fun _ _ => rfl) (fun _ _ => rfl) rfl

/-- C8: the call never writes caller memory — after `tetrahedralize_mesh`
returns (success or failure alike), the caller's vertex buffer, face-index
buffer and option string are exactly what they were before the call. -/
theorem claim_C8_inputs_untouched {R B : Type} [Inhabited R]
    (kernel : B → tetgenio R → Except Unit (tetgenio R))
    (parse : String → Except Unit B)
    (num_vertices num_faces : Int) (s : CallerMem R) :
    (tetrahedralize_mesh kernel parse num_vertices num_faces s).2 = s := by
  rw [tetrahedralize_mesh_apply]

/-- C9: with the kernel a pure function, `tetrahedralize_mesh` is
deterministic and stateless: two calls on element-wise identical vertex
buffers, face buffers and option strings produce the same outcome, and each
call leaves the (only) shared state — caller memory — unchanged, so neither
call can affect the other. -/
theorem claim_C9_deterministic {R B : Type} [Inhabited R]
    (kernel : B → tetgenio R → Except Unit (tetgenio R))
    (parse : String → Except Unit B)
    (num_vertices num_faces : Int) (s₁ s₂ : CallerMem R)
    (hv : ∀ i, s₁.in_vertices i = s₂.in_vertices i)
    (hf : ∀ i, s₁.in_faces i = s₂.in_faces i)
    (ho : s₁.options = s₂.options) :
    (tetrahedralize_mesh kernel parse num_vertices num_faces s₁).1 =
      (tetrahedralize_mesh kernel parse num_vertices num_faces s₂).1 ∧
    (tetrahedralize_mesh kernel parse num_vertices num_faces s₁).2 = s₁ ∧
    (tetrahedralize_mesh kernel parse num_vertices num_faces s₂).2 = s₂ := by
  have hs : s₁ = s₂ := CallerMem_eq s₁ s₂ hv hf ho
  subst hs
  exact ⟨rfl, by rw [tetrahedralize_mesh_apply], by rw [tetrahedralize_mesh_apply]⟩

/-- Witness for C9. -/
theorem claim_C9_witness :
    (tetrahedralize_mesh exKernel exParse 2 1 exMem).1 =
      (tetrahedralize_mesh exKernel exParse 2 1 exMem).1 ∧
    (tetrahedralize_mesh exKernel exParse 2 1 exMem).2 = exMem ∧
    (tetrahedralize_mesh exKernel exParse 2 1 exMem).2 = exMem :=
  claim_C9_deterministic exKernel exParse 2 1 exMem exMem
    (fun _ => rfl) (fun _ => rfl) rfl

/-- C10: a negative count makes the corresponding `new[]` array bound
negative, which raises a fault that the catch-all barrier converts to the
null sentinel: the call returns null and leaves caller memory untouched —
no fault propagates and no caller memory is read out of bounds. -/
theorem claim_C10_negative_counts {R B : Type} [Inhabited R]
    (kernel : B → tetgenio R → Except Unit (tetgenio R))
    (parse : String → Except Unit B)
    (num_vertices num_faces : Int) (s : CallerMem R)
    (h : num_vertices < 0 ∨ num_faces < 0) :
    (tetrahedralize_mesh kernel parse num_vertices num_faces s).1 = none ∧
    (tetrahedralize_mesh kernel parse num_vertices num_faces s).2 = s := by
  rw [tetrahedralize_mesh_apply]
  refine ⟨?_, rfl⟩
  unfold runSpec
  rcases h with h | h
  · rw [if_pos (by omega)]
  · by_cases h1 : num_vertices * 3 < 0
    · rw [if_pos h1]
    · rw [if_neg h1, if_pos h]

/-- Witness for C10 at `num_vertices = -1`. -/
theorem claim_C10_witness :
    (tetrahedralize_mesh exKernel exParse (-1) 1 exMem).1 = none ∧
    (tetrahedralize_mesh exKernel exParse (-1) 1 exMem).2 = exMem :=
  claim_C10_negative_counts exKernel exParse (-1) 1 exMem (Or.inl (by decide))

end ShortStack
